import Mathlib

/-!
# Verification of the Nawasons Dairy core pipeline

Shallow embedding of the milk intake → batch lifecycle → lab approval →
storage/inventory reconciliation pipeline of the Nawasons Dairy Django
application, together with proofs of its specified properties.

Conventions of the embedding:
* Django model rows become Lean structures; the relevant tables become
  lists of rows threaded through the operations as explicit state.
* `DecimalField` quantities are embedded as rationals (`ℚ`); integer
  quantities as `ℕ`; database ids as `ℕ`.
* Timestamps are embedded as a day number (`ℕ`) together with a local
  time-of-day in minutes since midnight (`ℕ`); the application resolves a
  single collection time zone and compares plain `time` values, so only
  the local time-of-day order matters for the window logic.
* Methods that raise `ValidationError` become functions into
  `Except String _`, carrying the source's message; an `error` result
  performs no mutation, matching the exception aborting the request.
-/

namespace Dairy

/-! ## Collection windows (`lab/models.py`, `MilkYield`)

`MilkYield.COLLECTION_WINDOWS` fixes three default intake windows; a
`CollectionWindowOverride` row may replace the start/end of a session's
window.  Times are minutes since local midnight. -/

/-- One entry of `MilkYield.get_collection_windows()`: session key with the
effective start/end times (override applied when present). -/
structure Window where
  key : String
  start : ℕ
  stop : ℕ
  deriving Repr, DecidableEq

/-- The `CollectionWindowOverride` table: at most one override row per
session key (the model's `session_key` field is unique), holding the
replacement `(start_time, end_time)`. -/
structure WindowOverrides where
  morning : Option (ℕ × ℕ)
  afternoon : Option (ℕ × ℕ)
  evening : Option (ℕ × ℕ)
  deriving Repr, DecidableEq

/-- Effective window for one session: the override's times when an
override row exists, otherwise the defaults from `COLLECTION_WINDOWS`. -/
def applyOverride (key : String) (dflt : ℕ × ℕ) (ov : Option (ℕ × ℕ)) : Window :=
  match ov with
  | some (s, e) => ⟨key, s, e⟩
  | none => ⟨key, dflt.1, dflt.2⟩

/-- `MilkYield.get_collection_windows()`: the three session windows in
declaration order, with overrides applied.  Defaults: morning 00:00–06:00,
afternoon 12:00–15:00, evening 16:00–19:00 (in minutes). -/
def get_collection_windows (ov : WindowOverrides) : List Window :=
  [ applyOverride "morning" (0, 360) ov.morning
  , applyOverride "afternoon" (720, 900) ov.afternoon
  , applyOverride "evening" (960, 1140) ov.evening ]

/-- The membership test of `MilkYield.resolve_collection_session`:
`start <= end` gives the half-open interval `start <= t < end`; otherwise
the window wraps midnight and matches `t >= start or t < end`. -/
def inWindow (t : ℕ) (w : Window) : Bool :=
  if w.start ≤ w.stop then decide (w.start ≤ t) && decide (t < w.stop)
  else decide (w.start ≤ t) || decide (t < w.stop)

/-- `MilkYield.resolve_collection_session(measurement_dt)`: the key of the
first window of `get_collection_windows()` containing the local
time-of-day, else `none`. -/
def resolve_collection_session (ov : WindowOverrides) (t : ℕ) : Option String :=
  ((get_collection_windows ov).find? (inWindow t)).map Window.key

/-- The window-membership notion the specification describes: it reads a
window whose end is *less than or equal to* its start as wrapping
midnight.  Kept separate from `inWindow` (the code's test) so the two can
be compared. -/
def specInWindow (t : ℕ) (w : Window) : Bool :=
  if w.stop ≤ w.start then decide (w.start ≤ t) || decide (t < w.stop)
  else decide (w.start ≤ t) && decide (t < w.stop)

/-! ## Batch state machine (`lab/models.py`, `Batch`) -/

/-- `Batch.State`: `OPEN`/`CLOSED`/`LOCKED`. -/
inductive BatchState where
  | Open
  | Closed
  | Locked
  deriving Repr, DecidableEq

/-- One `Batch` row.  `created_at` is the creation order used by
`for_session`'s `order_by("-created_at")`; the `yields` many-to-many set
is kept as the list of member yield ids. -/
structure Batch where
  id : ℕ
  session : String
  collection_date : ℕ
  state : BatchState
  reopened_at : Option ℕ
  closed_at : Option ℕ
  opened_by : Option ℕ
  closed_by : Option ℕ
  created_at : ℕ
  yields : List ℕ
  deriving Repr, DecidableEq

namespace Batch

/-- `Batch.is_open`. -/
def is_open (b : Batch) : Bool := b.state = BatchState.Open

/-- `Batch.is_locked`. -/
def is_locked (b : Batch) : Bool := b.state = BatchState.Locked

/-- `Batch.open(user=…)`: refuses when `LOCKED`; otherwise sets `OPEN`,
clears `closed_at`/`closed_by`, stamps `reopened_at := now` and records
the acting user when given. -/
def «open» (b : Batch) (user : Option ℕ) (now : ℕ) : Except String Batch :=
  if b.state = BatchState.Locked then
    .error "Batch is locked after lab approval and cannot be reopened."
  else
    .ok { b with
      state := BatchState.Open
      closed_at := none
      closed_by := none
      reopened_at := some now
      opened_by := match user with | some u => some u | none => b.opened_by }

/-- `Batch.close(user=…)`: refuses when `LOCKED`; otherwise sets `CLOSED`,
stamps `closed_at := now` and records the acting user when given. -/
def close (b : Batch) (user : Option ℕ) (now : ℕ) : Except String Batch :=
  if b.state = BatchState.Locked then
    .error "Batch is already locked for lab processing."
  else
    .ok { b with
      state := BatchState.Closed
      closed_at := some now
      closed_by := match user with | some u => some u | none => b.closed_by }

/-- `Batch.lock()`: unconditionally sets `LOCKED`. -/
def lock (b : Batch) : Batch :=
  { b with state := BatchState.Locked }

end Batch

/-! ## Batch tests (`lab/models.py`, `BatchTest`) -/

/-- One `BatchTest` row (the fields `approve`/`reject` touch). -/
structure BatchTest where
  result : String
  contaminants : Option String
  deriving Repr, DecidableEq

namespace BatchTest

/-- `BatchTest.approve()`: records the verdict and locks the parent batch. -/
def approve (t : BatchTest) (b : Batch) : BatchTest × Batch :=
  ({ t with result := "approved" }, b.lock)

/-- `BatchTest.reject(reason)`: records the verdict (and the reason in
`contaminants` when given) and locks the parent batch. -/
def reject (t : BatchTest) (reason : Option String) (b : Batch) : BatchTest × Batch :=
  let t' := { t with
    result := "rejected"
    contaminants := match reason with | some r => some r | none => t.contaminants }
  (t', b.lock)

end BatchTest

/-! ## The lab database: yields and batches (`lab/models.py`)

State threaded through `MilkYield.save`, `Batch.for_session`,
`Batch.ensure_yield_assignment`, `Batch.session_is_open` and
`MilkYield.is_session_available`. -/

/-- `MilkYield.QUALITY_SCORES` lookup with the code's default of 85. -/
def quality_score_for (grade : String) : ℕ :=
  if grade = "premium" then 98
  else if grade = "standard" then 85
  else if grade = "low" then 70
  else 85

/-- One `MilkYield` row: the fields `save` and the batch-assignment logic
read or write.  `day`/`tod` are the `recorded_at` date and local
time-of-day in minutes.  (`collection_window_start/end` and
`storage_level_percentage`, display metadata derived on save, are not
involved in the claims and are left out of the row.) -/
structure MYRow where
  id : ℕ
  cow : ℕ
  session : String
  day : ℕ
  tod : ℕ
  yield_litres : ℚ
  quality_grade : String
  total_yield : ℚ
  quality_score : ℕ
  deriving Repr, DecidableEq

/-- The lab tables: milk yields, intake batches, and the id sequences the
database assigns on insert. -/
structure LabDb where
  yields : List MYRow
  batches : List Batch
  next_yield_id : ℕ
  next_batch_id : ℕ
  deriving Repr, DecidableEq

/-- Accumulator step of `order_by("-created_at").first()`: keep whichever
row was created later. -/
def laterCreated (acc : Option Batch) (b : Batch) : Option Batch :=
  match acc with
  | none => some b
  | some a => if a.created_at < b.created_at then some b else some a

/-- `Batch.for_session(session_key, collection_date=…, create=False)`:
the most recently created batch matching `(session, collection_date)`,
or `none`. -/
def for_session? (db : LabDb) (s : String) (d : ℕ) : Option Batch :=
  (db.batches.filter (fun b => b.session = s ∧ b.collection_date = d)).foldl
    laterCreated none

/-- A fresh batch as `Batch.objects.create(session=…, collection_date=…)`
builds it: state defaults to `OPEN`, no stamps, empty yield set; the new
row receives the next id and the latest creation order. -/
def mkBatch (id : ℕ) (s : String) (d : ℕ) : Batch :=
  ⟨id, s, d, BatchState.Open, none, none, none, none, id, []⟩

/-- `Batch.objects.create(...)`: append the fresh row and advance the id
sequence; returns the created row. -/
def create_batch (db : LabDb) (s : String) (d : ℕ) : Batch × LabDb :=
  let b := mkBatch db.next_batch_id s d
  (b, { db with batches := db.batches ++ [b], next_batch_id := db.next_batch_id + 1 })

/-- `batch.yields.add(yield_obj)`: append the yield id to the m2m set of
the batch with the given id. -/
def add_yield_to (db : LabDb) (bid : ℕ) (yid : ℕ) : LabDb :=
  { db with batches := db.batches.map fun b =>
      if b.id = bid then { b with yields := b.yields ++ [yid] } else b }

/-- `Batch.ensure_yield_assignment(yield_obj)`: no-op on an empty
session; otherwise look up the current batch for (session, recorded
date).  Absent or locked → create a fresh batch and attach there; closed
(not locked) → raise; open → attach to it. -/
def ensure_yield_assignment (db : LabDb) (y : MYRow) : Except String LabDb :=
  if y.session = "" then .ok db
  else
    match for_session? db y.session y.day with
    | none =>
        let (b, db') := create_batch db y.session y.day
        .ok (add_yield_to db' b.id y.id)
    | some b =>
        if b.is_locked then
          let (nb, db') := create_batch db y.session y.day
          .ok (add_yield_to db' nb.id y.id)
        else if b.is_open then
          .ok (add_yield_to db b.id y.id)
        else
          .error "The selected batch is closed. Reopen it before recording new yields."

/-- `Batch.session_is_open(session_key, collection_date=…)`: an absent
batch counts as open. -/
def session_is_open (db : LabDb) (s : String) (d : ℕ) : Bool :=
  match for_session? db s d with
  | none => true
  | some b => b.state = BatchState.Open

/-- `MilkYield.is_session_available(session_key, measurement_dt)`: false
on an empty session key; otherwise an absent batch counts as available,
and an existing one must be `OPEN`. -/
def is_session_available (db : LabDb) (s : String) (day : ℕ) : Bool :=
  if s = "" then false
  else
    match for_session? db s day with
    | none => true
    | some b => b.state = BatchState.Open

/-- The derived fields `MilkYield.save` computes before inserting:
`total_yield := yield_litres`, `quality_score` from the lookup table, and
the database-assigned id. -/
def mkRow (db : LabDb) (y : MYRow) : MYRow :=
  { y with
    id := db.next_yield_id
    total_yield := y.yield_litres
    quality_score := quality_score_for y.quality_grade }

/-- `super().save()` on a new row: insert and advance the id sequence. -/
def insertRow (db : LabDb) (r : MYRow) : LabDb :=
  { db with yields := db.yields ++ [r], next_yield_id := db.next_yield_id + 1 }

/-- `super().delete()` by primary key. -/
def deleteRow (db : LabDb) (rid : ℕ) : LabDb :=
  { db with yields := db.yields.filter (fun r => r.id ≠ rid) }

/-- Tail of `MilkYield.save` once the effective session is fixed: set the
derived fields, persist, then ensure batch membership; a failed
assignment deletes the just-inserted row and re-raises. -/
def save_with_session (db : LabDb) (y : MYRow) (s : String) : LabDb × Option String :=
  let row := mkRow db { y with session := s }
  let db1 := insertRow db row
  match ensure_yield_assignment db1 row with
  | .error e => (deleteRow db1 row.id, some e)
  | .ok db2 => (db2, none)

/-- `MilkYield.save`: resolve the session from the recorded time; inside
a window the resolved session wins; outside all windows fall back to the
declared session only when it is set and its batch window is still
available, else raise before persisting anything. -/
def MilkYield.save (ov : WindowOverrides) (db : LabDb) (y : MYRow) :
    LabDb × Option String :=
  match resolve_collection_session ov y.tod with
  | some s => save_with_session db y s
  | none =>
      if y.session = "" then
        (db, some "Milk collection is currently closed outside the configured intake windows.")
      else if is_session_available db y.session y.day then
        save_with_session db y y.session
      else
        (db, some "The selected batch window is closed. Ask the lab team to reopen it before recording more yields.")

/-! ## Production batches and lab approval (`production/models.py`,
`lab/models.py`)

The provided `production/models.py` snapshot holds the older tank-level
`ProductionBatch`; migrations `0007`/`0009`/`0010` and the lab/production
views and forms reference the newer model with `source_tank`,
`liters_used` and `status`.  The structure below embeds that newer model:
the `status` choices come from migration
`0010_collection_windows_and_batch_status`. -/

/-- `ProductionBatch.Status`: `pending_lab` / `lab_approved` /
`ready_for_store` (choices of migration 0010). -/
inductive PBStatus where
  | pending_lab
  | lab_approved
  | ready_for_store
  deriving Repr, DecidableEq

/-- One `ProductionBatch` row (the fields the verified operations
touch). -/
structure ProductionBatch where
  id : ℕ
  sku : String
  product_type : String
  status : PBStatus
  moved_to_lab : Bool
  deriving Repr, DecidableEq

/-- One `LabBatchApproval` row (the fields `save`/`set_expiry`/
`_sync_production_batch_state` touch); `expiry_date` is a day number. -/
structure LabBatchApproval where
  overall_result : String
  expiry_date : Option ℕ
  deriving Repr, DecidableEq

namespace LabBatchApproval

/-- `LabBatchApproval._sync_production_batch_state()`: derives the linked
ProductionBatch's status from the verdict and expiry
(approved+expiry → READY_FOR_STORE, approved alone → LAB_APPROVED,
rejected or anything else → PENDING_LAB), and flips `moved_to_lab` on;
no linked batch means nothing to sync. -/
def sync_production_batch_state (a : LabBatchApproval)
    (batch : Option ProductionBatch) : Option ProductionBatch :=
  match batch with
  | none => none
  | some b =>
      let desired : PBStatus :=
        if a.overall_result = "approved" then
          if a.expiry_date.isSome then .ready_for_store else .lab_approved
        else if a.overall_result = "rejected" then .pending_lab
        else .pending_lab
      some { b with status := desired, moved_to_lab := true }

/-- `LabBatchApproval.save()`: persist the approval, then synchronize the
linked production batch. -/
def save (a : LabBatchApproval) (batch : Option ProductionBatch) :
    LabBatchApproval × Option ProductionBatch :=
  (a, sync_production_batch_state a batch)

/-- `LabBatchApproval.set_expiry(shelf_life_days)`: set
`expiry_date := today + shelf_life_days` and save (which re-runs the
sync). -/
def set_expiry (a : LabBatchApproval) (batch : Option ProductionBatch)
    (today : ℕ) (shelf_life_days : ℕ) :
    LabBatchApproval × Option ProductionBatch :=
  save { a with expiry_date := some (today + shelf_life_days) } batch

end LabBatchApproval

/-! ## Production batch consumption

Modelled from the spec: the FIFO `consume_milk` body belongs to the newer
`ProductionBatch` model, whose fields (`liters_used`, `status`,
`source_tank`) appear in the repository's migrations, forms and lab views
but whose model file is not among the provided sources (the snapshot
carries only the older single-yield `consume_milk`).  The definitions
below follow the specification's §4.5 wording. -/

/-- One `MilkYield` row of the source tank as consumption sees it; the
list it lives in is ordered oldest-first (the queryset's FIFO order). -/
structure TankYield where
  id : ℕ
  litres : ℚ
  quality_grade : String
  deriving Repr, DecidableEq

/-- Modelled from the spec: consumption considers only yields with
quality grade premium or standard. -/
def eligible_quality (y : TankYield) : Bool :=
  y.quality_grade = "premium" || y.quality_grade = "standard"

/-- The volume available to consumption: the litres of the eligible rows. -/
def eligible_sum (tank : List TankYield) : ℚ :=
  ((tank.filter eligible_quality).map TankYield.litres).sum

/-- Modelled from the spec: walk the tank oldest-first, deducting
`min(remaining, yield.litres)` from each eligible row until the requested
amount is exhausted; ineligible rows are skipped untouched. -/
def deduct_fifo : List TankYield → ℚ → List TankYield
  | [], _ => []
  | y :: ys, remaining =>
      if eligible_quality y then
        let take := min remaining y.litres
        { y with litres := y.litres - take } :: deduct_fifo ys (remaining - take)
      else
        y :: deduct_fifo ys remaining

/-- Modelled from the spec: `ProductionBatch.consume_milk()` requires
`liters_used > 0`, fails when the eligible volume is short (no partial
consumption), otherwise deducts FIFO and marks the batch
`moved_to_lab=True`, `status=PENDING_LAB`. -/
def consume_milk (tank : List TankYield) (b : ProductionBatch)
    (liters_used : ℚ) : Except String (List TankYield × ProductionBatch) :=
  if liters_used ≤ 0 then
    .error "Liters must be greater than zero."
  else if eligible_sum tank < liters_used then
    .error "Not enough milk in tank for this production batch"
  else
    .ok (deduct_fifo tank liters_used,
      { b with moved_to_lab := true, status := .pending_lab })

/-! ## Cold storage (`storage/models.py`, `storage/services.py`,
`storage/signals.py`, `lab/forms.py`) -/

/-- One `ColdStorageInventory` row as `storage/models.py` defines it:
`packaging` carries the `packets_per_carton` of the linked `Packaging`
row when one is set.  `expiry_date` is a day number (`ℤ` so that
differences behave like calendar arithmetic). -/
structure SRecord where
  production_batch_id : ℕ
  packaging : Option ℕ
  expiry_date : ℤ
  cartons : ℕ
  loose_units : ℕ
  status : String
  last_restocked : ℕ
  deriving Repr, DecidableEq

namespace SRecord

/-- `ColdStorageInventory.total_units()`: cartons × packets-per-carton +
loose when a usable packaging is attached (the code tests the attribute's
truthiness, so a zero `packets_per_carton` also falls back), else just
the loose units. -/
def total_units (r : SRecord) : ℕ :=
  match r.packaging with
  | some ppc => if ppc ≠ 0 then r.cartons * ppc + r.loose_units else r.loose_units
  | none => r.loose_units

end SRecord

/-- `storage.services._status_for_expiry`: expired strictly before today,
near-expiry within three days, else in storage. -/
def status_for_expiry (today expiry_date : ℤ) : String :=
  if expiry_date < today then "expired"
  else if expiry_date - today ≤ 3 then "near_expiry"
  else "in_storage"

/-- The inventory item fields `adjust_storage_for_inventory_item`
reads. -/
structure InvItemRef where
  batch_id : Option ℕ
  deriving Repr, DecidableEq

/-- The `ColdStorageInventory` table for the adjustment service. -/
structure StoreDb where
  records : List SRecord
  deriving Repr, DecidableEq

/-- `storage.services.adjust_storage_for_inventory_item(item, delta)`:
no-op (returning false) without a linked batch, a zero delta, or a
missing storage row; otherwise recompute the total units, delete the row
when the new total is ≤ 0, else re-split into cartons/loose — divmod by
`packets_per_carton` when a usable packaging is known (the code's
`try/except` turns a zero divisor into the all-loose fallback), else all
loose — and restamp status/last_restocked. -/
def adjust_storage_for_inventory_item (db : StoreDb) (item : InvItemRef)
    (delta : ℤ) (today : ℤ) (now : ℕ) : Bool × StoreDb :=
  match item.batch_id with
  | none => (false, db)
  | some bid =>
      if delta = 0 then (false, db)
      else
        match db.records.find? (fun r => r.production_batch_id = bid) with
        | none => (false, db)
        | some r =>
            let current_total : ℤ := r.total_units
            let new_total : ℤ := current_total + delta
            if new_total ≤ 0 then
              (true, ⟨db.records.eraseP (fun q => q.production_batch_id = bid)⟩)
            else
              let nt : ℕ := new_total.toNat
              let r' : SRecord :=
                match r.packaging with
                | some ppc =>
                    if ppc ≠ 0 then
                      { r with cartons := nt / ppc, loose_units := nt % ppc }
                    else
                      { r with cartons := 0, loose_units := nt }
                | none => { r with cartons := 0, loose_units := nt }
              let r'' : SRecord :=
                { r' with
                    last_restocked := now
                    status := status_for_expiry today r'.expiry_date }
              (true, ⟨db.records.map fun q =>
                if q.production_batch_id = bid then r'' else q⟩)

/-- The carton/loose split of
`LabBatchApprovalForm.save_storage_assignment` when creating a storage
record from a packet count: divmod by `packets_per_carton` when a
packaging rule was inferred (a zero divisor trips the `except` branch,
which zeroes both), otherwise everything is stored loose. -/
def split_units (units : ℕ) (packaging : Option ℕ) : ℕ × ℕ :=
  match packaging with
  | some ppc => if ppc ≠ 0 then (units / ppc, units % ppc) else (0, 0)
  | none => (0, units)

/-! ## Storage → inventory synchronization (`storage/signals.py`)

The signal file aggregates `Sum("quantity")` over the storage lots: it
addresses the repository's flat-quantity variant of
`ColdStorageInventory` (the design notes record that both variants
coexist across snapshots), so a lot here carries its `quantity`
directly. -/

/-- A storage lot as `_sync_inventory_for_sku` reads it: the linked
production batch (carrying the SKU), a flat quantity, an optional expiry
and the restock stamp. -/
structure StorageLot where
  production_batch : ProductionBatch
  quantity : ℚ
  expiry_date : Option ℕ
  last_restocked : ℕ
  deriving Repr, DecidableEq

/-- One `InventoryItem` row (the fields the sync touches). -/
structure InvItem where
  name : String
  sku : String
  current_quantity : ℚ
  batch_id : Option ℕ
  expiry_date : Option ℕ
  last_restocked : ℕ
  deriving Repr, DecidableEq

/-- One `InventoryTransaction` row. -/
structure InvTxn where
  sku : String
  quantity : ℚ
  reason : String
  batch_id : Option ℕ
  deriving Repr, DecidableEq

/-- The tables `_sync_inventory_for_sku` works on. -/
structure InvDb where
  lots : List StorageLot
  items : List InvItem
  txns : List InvTxn
  deriving Repr, DecidableEq

/-- The storage total for a SKU: sum of `quantity` over the lots whose
linked `ProductionBatch` carries that SKU. -/
def storage_total_for (db : InvDb) (sku : String) : ℚ :=
  ((db.lots.filter (fun l => l.production_batch.sku = sku)).map
    StorageLot.quantity).sum

/-- Earliest expiry among the SKU's lots that have one
(`order_by("expiry_date") … first()`). -/
def earliest_expiry_for (db : InvDb) (sku : String) : Option ℕ :=
  ((db.lots.filter (fun l => l.production_batch.sku = sku)).filterMap
    StorageLot.expiry_date).min?

/-- The most recently restocked lot of the SKU, used to infer a batch id
when the caller did not pass one. -/
def latest_lot_for (db : InvDb) (sku : String) : Option StorageLot :=
  ((db.lots.filter (fun l => l.production_batch.sku = sku)).foldl
    (fun acc l => match acc with
      | none => some l
      | some a => if a.last_restocked < l.last_restocked then some l else some a)
    none)

/-- `storage.signals._sync_inventory_for_sku(sku, latest_batch, reason)`:
recompute the SKU's storage total; update the matching `InventoryItem`
(logging the delta as a transaction when nonzero), or auto-create the
item when none exists, the total is positive and a batch is known. -/
def sync_inventory_for_sku (db : InvDb) (sku : String)
    (latest_batch : Option ProductionBatch) (reason : String)
    (today : ℕ) : InvDb :=
  if sku = "" then db
  else
    let storage_total := storage_total_for db sku
    let earliest := earliest_expiry_for db sku
    let latest_batch' :=
      match latest_batch with
      | some b => some b
      | none =>
          match latest_lot_for db sku with
          | some lot => some lot.production_batch
          | none => none
    let latest_batch_id := latest_batch'.map ProductionBatch.id
    match db.items.find? (fun i => i.sku = sku) with
    | none =>
        match latest_batch' with
        | some b =>
            if 0 < storage_total then
              { db with
                  items := db.items ++
                    [⟨b.product_type, sku, storage_total, latest_batch_id,
                      earliest, today⟩]
                  txns := db.txns ++
                    [⟨sku, storage_total, reason, latest_batch_id⟩] }
            else db
        | none => db
    | some item =>
        let delta := storage_total - item.current_quantity
        let item' : InvItem :=
          { item with
              current_quantity := storage_total
              batch_id :=
                if latest_batch_id.isSome ∧ item.batch_id ≠ latest_batch_id
                then latest_batch_id else item.batch_id
              expiry_date := if earliest.isSome then earliest else item.expiry_date
              last_restocked := today }
        let items' := db.items.map fun i => if i.sku = sku then item' else i
        if delta ≠ 0 then
          { db with
              items := items'
              txns := db.txns ++ [⟨sku, delta, reason, latest_batch_id⟩] }
        else
          { db with items := items' }

/-- `sync_inventory_on_storage_save`: the post-save signal — the saved
lot's batch and SKU drive the sync. -/
def sync_inventory_on_storage_save (db : InvDb) (lot : StorageLot)
    (created : Bool) (today : ℕ) : InvDb :=
  sync_inventory_for_sku db lot.production_batch.sku
    (some lot.production_batch)
    (if created then "Storage lot created" else "Storage lot updated") today

/-- `sync_inventory_on_storage_delete`: the post-delete signal. -/
def sync_inventory_on_storage_delete (db : InvDb) (lot : StorageLot)
    (today : ℕ) : InvDb :=
  sync_inventory_for_sku db lot.production_batch.sku
    (some lot.production_batch) "Storage lot removed" today

/-! ### Facts about `for_session?` -/

theorem foldl_laterCreated_mem :
    ∀ (l : List Batch) (acc : Option Batch) (b : Batch),
      l.foldl laterCreated acc = some b → b ∈ l ∨ acc = some b := by
  intro l
  induction l with
  | nil => exact fun acc b h => Or.inr h
  | cons a l ih =>
      intro acc b h
      rcases ih (laterCreated acc a) b h with hmem | hacc
      · exact Or.inl (List.mem_cons_of_mem _ hmem)
      · cases acc with
        | none =>
            simp only [laterCreated, Option.some.injEq] at hacc
            exact Or.inl (hacc ▸ List.mem_cons_self a l)
        | some x =>
            simp only [laterCreated] at hacc
            split at hacc
            · exact Or.inl (Option.some.inj hacc ▸ List.mem_cons_self a l)
            · exact Or.inr hacc

theorem foldl_laterCreated_ge :
    ∀ (l : List Batch) (acc : Option Batch) (b : Batch),
      l.foldl laterCreated acc = some b →
      (∀ x, acc = some x → x.created_at ≤ b.created_at) ∧
        ∀ a ∈ l, a.created_at ≤ b.created_at := by
  intro l
  induction l with
  | nil =>
      intro acc b h
      refine ⟨fun x hx => ?_, by simp⟩
      rw [hx] at h
      exact le_of_eq (congrArg Batch.created_at (Option.some.inj h))
  | cons a l ih =>
      intro acc b h
      obtain ⟨h1, h2⟩ := ih (laterCreated acc a) b h
      have ha : a.created_at ≤ b.created_at := by
        cases acc with
        | none => exact h1 a rfl
        | some x =>
            by_cases hlt : x.created_at < a.created_at
            · exact h1 a (by simp [laterCreated, hlt])
            · exact le_trans (Nat.le_of_not_lt hlt) (h1 x (by simp [laterCreated, hlt]))
      refine ⟨fun x hx => ?_, fun c hc => ?_⟩
      · cases acc with
        | none => simp at hx
        | some z =>
            have hzx : z = x := Option.some.inj hx
            subst hzx
            by_cases hlt : z.created_at < a.created_at
            · exact le_trans (le_of_lt hlt) ha
            · exact h1 z (by simp [laterCreated, hlt])
      · rcases List.mem_cons.mp hc with rfl | hc
        · exact ha
        · exact h2 c hc

theorem foldl_laterCreated_isSome (l : List Batch) (x : Batch) :
    ∃ b, l.foldl laterCreated (some x) = some b := by
  induction l generalizing x with
  | nil => exact ⟨x, rfl⟩
  | cons a l ih =>
      by_cases hlt : x.created_at < a.created_at <;>
        simpa [laterCreated, hlt] using ih _

/-- `for_session?` really returns the most-recently-created batch among
those matching the session and date. -/
theorem for_session?_spec {db : LabDb} {s : String} {d : ℕ} {b : Batch}
    (h : for_session? db s d = some b) :
    b ∈ db.batches ∧ b.session = s ∧ b.collection_date = d ∧
      ∀ a ∈ db.batches, a.session = s → a.collection_date = d →
        a.created_at ≤ b.created_at := by
  unfold for_session? at h
  rcases foldl_laterCreated_mem _ _ _ h with hmem | hacc
  · have hb := List.mem_filter.mp hmem
    have hprop : b.session = s ∧ b.collection_date = d := by
      simpa using hb.2
    refine ⟨hb.1, hprop.1, hprop.2, fun a ha has had => ?_⟩
    exact (foldl_laterCreated_ge _ _ _ h).2 a
      (List.mem_filter.mpr ⟨ha, by simp [has, had]⟩)
  · cases hacc

/-- An absent `for_session?` result means no batch matches at all. -/
theorem for_session?_none {db : LabDb} {s : String} {d : ℕ}
    (h : for_session? db s d = none) :
    ∀ a ∈ db.batches, ¬(a.session = s ∧ a.collection_date = d) := by
  intro a ha hprop
  unfold for_session? at h
  have hmem : a ∈ db.batches.filter
      (fun b => b.session = s ∧ b.collection_date = d) :=
    List.mem_filter.mpr ⟨ha, by simp [hprop.1, hprop.2]⟩
  rcases hf : db.batches.filter
      (fun b => b.session = s ∧ b.collection_date = d) with _ | ⟨hd, tl⟩
  · rw [hf] at hmem; cases hmem
  · rw [hf] at h
    obtain ⟨c, hc⟩ := foldl_laterCreated_isSome tl hd
    rw [List.foldl_cons] at h
    simp only [laterCreated] at h
    rw [hc] at h
    cases h

/-- Attaching a yield to a batch id no existing batch carries leaves the
existing rows unchanged. -/
theorem map_add_yield_id (l : List Batch) (bid yid : ℕ)
    (h : ∀ b ∈ l, b.id ≠ bid) :
    (l.map fun b =>
        if b.id = bid then { b with yields := b.yields ++ [yid] } else b) = l := by
  induction l with
  | nil => rfl
  | cons a l ih =>
      simp only [List.map_cons, if_neg (h a (List.mem_cons_self a l)),
        ih (fun b hb => h b (List.mem_cons_of_mem a hb))]

/-- The create-and-attach path of `ensure_yield_assignment` produces
exactly one fresh `OPEN` batch holding the yield, leaving every existing
batch row unchanged. -/
theorem ensure_fresh_attach (db : LabDb) (y : MYRow)
    (wf : ∀ b ∈ db.batches, b.id < db.next_batch_id) :
    add_yield_to
      { db with
          batches := db.batches ++ [mkBatch db.next_batch_id y.session y.day]
          next_batch_id := db.next_batch_id + 1 }
      db.next_batch_id y.id =
    { db with
        batches := db.batches ++
          [⟨db.next_batch_id, y.session, y.day, BatchState.Open,
            none, none, none, none, db.next_batch_id, [y.id]⟩]
        next_batch_id := db.next_batch_id + 1 } := by
  unfold add_yield_to
  simp [List.map_append,
    map_add_yield_id db.batches db.next_batch_id y.id
      (fun b hb => Nat.ne_of_lt (wf b hb)),
    mkBatch]

/-! ### Facts about assignment success and the compensating delete -/

theorem add_yield_to_superset (db : LabDb) (bid yid : ℕ) (b : Batch)
    (hb : b ∈ db.batches) :
    ∃ b' ∈ (add_yield_to db bid yid).batches, b.yields ⊆ b'.yields := by
  refine ⟨_, List.mem_map_of_mem _ hb, ?_⟩
  by_cases h : b.id = bid
  · simp [h]
  · simp [h]

theorem add_yield_to_attaches (db : LabDb) (bid yid : ℕ) (b : Batch)
    (hb : b ∈ db.batches) (hid : b.id = bid) :
    ∃ b' ∈ (add_yield_to db bid yid).batches, yid ∈ b'.yields := by
  refine ⟨_, List.mem_map_of_mem _ hb, ?_⟩
  simp [hid]

/-- A successful `ensure_yield_assignment` never touches the yields
table, only grows the yield sets of existing batches, and — on a
non-empty session — leaves the yield inside some batch. -/
theorem ensure_ok_spec (db : LabDb) (y : MYRow) (db' : LabDb)
    (h : ensure_yield_assignment db y = .ok db') :
    db'.yields = db.yields ∧
    (∀ b ∈ db.batches, ∃ b' ∈ db'.batches, b.yields ⊆ b'.yields) ∧
    (y.session ≠ "" → ∃ b ∈ db'.batches, y.id ∈ b.yields) := by
  unfold ensure_yield_assignment at h
  by_cases hs : y.session = ""
  · rw [if_pos hs] at h
    obtain rfl : db = db' := Except.ok.inj h
    exact ⟨rfl, fun b hb => ⟨b, hb, List.Subset.refl _⟩, fun hne => absurd hs hne⟩
  · rw [if_neg hs] at h
    cases hfs : for_session? db y.session y.day with
    | none =>
        simp only [hfs, create_batch] at h
        obtain rfl := Except.ok.inj h
        refine ⟨rfl, fun b hb => ?_, fun _ => ?_⟩
        · exact add_yield_to_superset _ _ _ b (List.mem_append_left _ hb)
        · exact add_yield_to_attaches _ _ _ _
            (List.mem_append_right _ (List.mem_singleton_self _)) rfl
    | some b =>
        simp only [hfs] at h
        by_cases hl : b.is_locked = true
        · simp only [hl, if_true, create_batch] at h
          obtain rfl := Except.ok.inj h
          refine ⟨rfl, fun c hc => ?_, fun _ => ?_⟩
          · exact add_yield_to_superset _ _ _ c (List.mem_append_left _ hc)
          · exact add_yield_to_attaches _ _ _ _
              (List.mem_append_right _ (List.mem_singleton_self _)) rfl
        · simp only [Bool.not_eq_true] at hl
          simp only [hl, Bool.false_eq_true, if_false] at h
          by_cases ho : b.is_open = true
          · simp only [ho, if_true] at h
            obtain rfl := Except.ok.inj h
            refine ⟨rfl, fun c hc => add_yield_to_superset _ _ _ c hc, fun _ => ?_⟩
            exact add_yield_to_attaches _ _ _ b (for_session?_spec hfs).1 rfl
          · simp only [Bool.not_eq_true] at ho
            simp only [ho, Bool.false_eq_true, if_false] at h
            cases h

/-- Deleting the just-inserted row restores the yields table (and never
touched the batches). -/
theorem deleteRow_insertRow (db : LabDb) (row : MYRow)
    (h : ∀ r ∈ db.yields, r.id ≠ row.id) :
    (deleteRow (insertRow db row) row.id).yields = db.yields ∧
    (deleteRow (insertRow db row) row.id).batches = db.batches := by
  have h1 : db.yields.filter (fun r => r.id ≠ row.id) = db.yields :=
    List.filter_eq_self.mpr (fun a ha => by simpa using h a ha)
  refine ⟨?_, rfl⟩
  simp only [deleteRow, insertRow, List.filter_append, h1]
  simp

/-- The windows returned by `get_collection_windows` keep the three fixed
session keys whatever the overrides. -/
theorem window_keys_fixed (ov : WindowOverrides) :
    (get_collection_windows ov).map Window.key =
      ["morning", "afternoon", "evening"] := by
  obtain ⟨m, a, e⟩ := ov
  rcases m with _ | ⟨_, _⟩ <;> rcases a with _ | ⟨_, _⟩ <;>
    rcases e with _ | ⟨_, _⟩ <;> rfl

/-- A resolved session key is never the empty string. -/
theorem resolve_key_ne_empty (ov : WindowOverrides) (t : ℕ) (s : String)
    (h : resolve_collection_session ov t = some s) : s ≠ "" := by
  unfold resolve_collection_session at h
  obtain ⟨w, hw, hkey⟩ := Option.map_eq_some'.mp h
  have hmem : w ∈ get_collection_windows ov := List.mem_of_find?_eq_some hw
  have hin : s ∈ ["morning", "afternoon", "evening"] := by
    rw [← window_keys_fixed ov]
    exact hkey ▸ List.mem_map_of_mem _ hmem
  simp only [List.mem_cons, List.mem_singleton, List.not_mem_nil, or_false] at hin
  rcases hin with rfl | rfl | rfl <;> decide

/-- The tail of `MilkYield.save`: a validation error from the batch
assignment rolls the insert back; success appends exactly the new row,
only grows batch yield sets, and the new row lands in a batch. -/
theorem save_with_session_spec (db : LabDb) (y : MYRow) (s : String)
    (hs : s ≠ "") (wf : ∀ r ∈ db.yields, r.id < db.next_yield_id) :
    (∀ db' e, save_with_session db y s = (db', some e) →
        db'.yields = db.yields ∧ db'.batches = db.batches) ∧
    (∀ db', save_with_session db y s = (db', none) →
        db'.yields = db.yields ++ [mkRow db { y with session := s }] ∧
        (∀ b ∈ db.batches, ∃ b' ∈ db'.batches, b.yields ⊆ b'.yields) ∧
        (∃ b ∈ db'.batches, db.next_yield_id ∈ b.yields)) := by
  have hrowid : (mkRow db { y with session := s }).id = db.next_yield_id := rfl
  have hne : ∀ r ∈ db.yields, r.id ≠ (mkRow db { y with session := s }).id :=
    fun r hr => hrowid ▸ Nat.ne_of_lt (wf r hr)
  constructor
  · intro db' e h
    simp only [save_with_session] at h
    cases hens : ensure_yield_assignment
        (insertRow db (mkRow db { y with session := s }))
        (mkRow db { y with session := s }) with
    | error e' =>
        rw [hens] at h
        have h1 : deleteRow (insertRow db (mkRow db { y with session := s }))
            (mkRow db { y with session := s }).id = db' := congrArg Prod.fst h
        obtain ⟨hy, hb⟩ := deleteRow_insertRow db (mkRow db { y with session := s }) hne
        exact h1 ▸ ⟨hy, hb⟩
    | ok db2 =>
        rw [hens] at h
        simp [Prod.ext_iff] at h
  · intro db' h
    simp only [save_with_session] at h
    cases hens : ensure_yield_assignment
        (insertRow db (mkRow db { y with session := s }))
        (mkRow db { y with session := s }) with
    | error e' =>
        rw [hens] at h
        simp [Prod.ext_iff] at h
    | ok db2 =>
        rw [hens] at h
        have h1 : db2 = db' := congrArg Prod.fst h
        subst h1
        obtain ⟨hy, hsup, hatt⟩ := ensure_ok_spec _ _ _ hens
        refine ⟨hy, fun b hb => hsup b hb, ?_⟩
        exact hrowid ▸ hatt (by simpa using hs)

/-- On success `save_with_session` leaves the new row inside a batch and
preserves the "every persisted yield belongs to a batch" invariant. -/
theorem save_with_session_no_orphans (db : LabDb) (y : MYRow) (s : String)
    (hs : s ≠ "") (wf : ∀ r ∈ db.yields, r.id < db.next_yield_id)
    (db' : LabDb) (h : save_with_session db y s = (db', none)) :
    (∃ b ∈ db'.batches, db.next_yield_id ∈ b.yields) ∧
    ((∀ r ∈ db.yields, ∃ b ∈ db.batches, r.id ∈ b.yields) →
      ∀ r ∈ db'.yields, ∃ b ∈ db'.batches, r.id ∈ b.yields) := by
  obtain ⟨hy, hsup, hatt⟩ := (save_with_session_spec db y s hs wf).2 db' h
  refine ⟨hatt, fun hinv r hr => ?_⟩
  rw [hy] at hr
  rcases List.mem_append.mp hr with hold | hnew
  · obtain ⟨b, hb, hin⟩ := hinv r hold
    obtain ⟨b', hb', hsub⟩ := hsup b hb
    exact ⟨b', hb', hsub hin⟩
  · obtain ⟨b, hb, hin⟩ := hatt
    have hrid : r = mkRow db { y with session := s } := List.mem_singleton.mp hnew
    subst hrid
    exact ⟨b, hb, hin⟩

end Dairy

/-! ## C6: compensating delete on failed batch assignment -/

/-- **C6.** For every `MilkYield.save`: whenever the save reports a
validation error — in particular when the post-persist batch assignment
raised, in which case the just-inserted row is deleted and the error
re-raised — the persisted yields and batches are exactly as before the
call; and whenever the save succeeds, the new row belongs to some batch,
so the invariant "no persisted MilkYield exists outside any batch" is
preserved by every save. -/
theorem C6_failed_assignment_is_rolled_back
    (ov : Dairy.WindowOverrides) (db : Dairy.LabDb) (y : Dairy.MYRow)
    (wf : ∀ r ∈ db.yields, r.id < db.next_yield_id) :
    (∀ db' e, Dairy.MilkYield.save ov db y = (db', some e) →
        db'.yields = db.yields ∧ db'.batches = db.batches) ∧
    (∀ db', Dairy.MilkYield.save ov db y = (db', none) →
        (∃ b ∈ db'.batches, db.next_yield_id ∈ b.yields) ∧
        ((∀ r ∈ db.yields, ∃ b ∈ db.batches, r.id ∈ b.yields) →
          ∀ r ∈ db'.yields, ∃ b ∈ db'.batches, r.id ∈ b.yields)) := by
  constructor
  · intro db' e h
    unfold Dairy.MilkYield.save at h
    cases hres : Dairy.resolve_collection_session ov y.tod with
    | some s =>
        rw [hres] at h
        exact (Dairy.save_with_session_spec db y s
          (Dairy.resolve_key_ne_empty ov y.tod s hres) wf).1 db' e h
    | none =>
        rw [hres] at h
        by_cases hemp : y.session = ""
        · rw [if_pos hemp] at h
          have h1 : db = db' := congrArg Prod.fst h
          exact h1 ▸ ⟨rfl, rfl⟩
        · rw [if_neg hemp] at h
          by_cases hav : Dairy.is_session_available db y.session y.day = true
          · rw [if_pos hav] at h
            exact (Dairy.save_with_session_spec db y y.session hemp wf).1 db' e h
          · rw [if_neg hav] at h
            have h1 : db = db' := congrArg Prod.fst h
            exact h1 ▸ ⟨rfl, rfl⟩
  · intro db' h
    unfold Dairy.MilkYield.save at h
    cases hres : Dairy.resolve_collection_session ov y.tod with
    | some s =>
        rw [hres] at h
        exact Dairy.save_with_session_no_orphans db y s
          (Dairy.resolve_key_ne_empty ov y.tod s hres) wf db' h
    | none =>
        rw [hres] at h
        by_cases hemp : y.session = ""
        · rw [if_pos hemp] at h
          simp [Prod.ext_iff] at h
        · rw [if_neg hemp] at h
          by_cases hav : Dairy.is_session_available db y.session y.day = true
          · rw [if_pos hav] at h
            exact Dairy.save_with_session_no_orphans db y y.session hemp wf db' h
          · rw [if_neg hav] at h
            simp [Prod.ext_iff] at h

/-- Witness for C6: an afternoon yield recorded at 13:00 against a
database whose only afternoon batch for the day is CLOSED.  The save
reports the assignment error and both tables are exactly as before. -/
theorem C6_failed_assignment_is_rolled_back_witness :
    (Dairy.MilkYield.save ⟨none, none, none⟩
        ⟨[], [⟨0, "afternoon", 0, Dairy.BatchState.Closed,
          none, none, none, none, 0, []⟩], 5, 1⟩
        ⟨9, 1, "afternoon", 0, 780, 4, "premium", 4, 98⟩).2 =
      some "The selected batch is closed. Reopen it before recording new yields." ∧
    (Dairy.MilkYield.save ⟨none, none, none⟩
        ⟨[], [⟨0, "afternoon", 0, Dairy.BatchState.Closed,
          none, none, none, none, 0, []⟩], 5, 1⟩
        ⟨9, 1, "afternoon", 0, 780, 4, "premium", 4, 98⟩).1.yields = [] := by
  constructor
  · decide
  · exact ((C6_failed_assignment_is_rolled_back ⟨none, none, none⟩
      ⟨[], [⟨0, "afternoon", 0, Dairy.BatchState.Closed,
        none, none, none, none, 0, []⟩], 5, 1⟩
      ⟨9, 1, "afternoon", 0, 780, 4, "premium", 4, 98⟩ (by simp)).1
      ⟨[], [⟨0, "afternoon", 0, Dairy.BatchState.Closed,
        none, none, none, none, 0, []⟩], 6, 1⟩
      "The selected batch is closed. Reopen it before recording new yields."
      (by decide)).1

/-! ## C10: an absent batch counts as an open one -/

/-- **C10.** When no `Batch` row exists for a given (session, collection
date) and the session key is non-empty, both
`MilkYield.is_session_available` and `Batch.session_is_open` return
`true`; consequently a late yield (recorded outside every window)
declaring that session is accepted by `MilkYield.save`, and assignment
creates a fresh `OPEN` batch holding it. -/
theorem C10_absent_batch_treated_as_open
    (ov : Dairy.WindowOverrides) (db : Dairy.LabDb) (y : Dairy.MYRow)
    (s : String) (d : ℕ) (hs : s ≠ "")
    (hnone : Dairy.for_session? db s d = none) :
    Dairy.is_session_available db s d = true ∧
    Dairy.session_is_open db s d = true ∧
    (y.session = s → y.day = d →
      Dairy.resolve_collection_session ov y.tod = none →
      (∀ b ∈ db.batches, b.id < db.next_batch_id) →
      Dairy.MilkYield.save ov db y =
        ({ db with
            yields := db.yields ++ [Dairy.mkRow db { y with session := y.session }]
            batches := db.batches ++
              [⟨db.next_batch_id, y.session, y.day, Dairy.BatchState.Open,
                none, none, none, none, db.next_batch_id, [db.next_yield_id]⟩]
            next_yield_id := db.next_yield_id + 1
            next_batch_id := db.next_batch_id + 1 }, none)) := by
  have havail : Dairy.is_session_available db s d = true := by
    simp [Dairy.is_session_available, hs, hnone]
  have hopen : Dairy.session_is_open db s d = true := by
    simp [Dairy.session_is_open, hnone]
  refine ⟨havail, hopen, ?_⟩
  intro hy1 hy2 hres wfb
  subst hy1
  subst hy2
  have hens : Dairy.ensure_yield_assignment
      (Dairy.insertRow db (Dairy.mkRow db { y with session := y.session }))
      (Dairy.mkRow db { y with session := y.session }) = .ok
      { db with
          yields := db.yields ++ [Dairy.mkRow db { y with session := y.session }]
          batches := db.batches ++
            [⟨db.next_batch_id, y.session, y.day, Dairy.BatchState.Open,
              none, none, none, none, db.next_batch_id, [db.next_yield_id]⟩]
          next_yield_id := db.next_yield_id + 1
          next_batch_id := db.next_batch_id + 1 } := by
    have hnone1 : Dairy.for_session?
        (Dairy.insertRow db (Dairy.mkRow db { y with session := y.session }))
        (Dairy.mkRow db { y with session := y.session }).session
        (Dairy.mkRow db { y with session := y.session }).day = none := hnone
    have hs' : ¬((Dairy.mkRow db { y with session := y.session }).session = "") := hs
    unfold Dairy.ensure_yield_assignment
    rw [if_neg hs']
    simp only [hnone1, Dairy.create_batch]
    exact congrArg Except.ok
      (Dairy.ensure_fresh_attach
        (Dairy.insertRow db (Dairy.mkRow db { y with session := y.session }))
        (Dairy.mkRow db { y with session := y.session }) wfb)
  unfold Dairy.MilkYield.save
  rw [hres, if_neg hs, if_pos havail]
  simp only [Dairy.save_with_session, hens]

/-- Witness for C10 on an empty database: the 20:30 yield (outside all
default windows) declaring "evening" is accepted and a fresh open batch
holding it is created. -/
theorem C10_absent_batch_treated_as_open_witness :
    Dairy.MilkYield.save ⟨none, none, none⟩ ⟨[], [], 3, 4⟩
        ⟨3, 2, "evening", 10, 1230, 6, "low", 6, 70⟩ =
      ({ yields := [⟨3, 2, "evening", 10, 1230, 6, "low", 6, 70⟩]
         batches := [⟨4, "evening", 10, Dairy.BatchState.Open,
           none, none, none, none, 4, [3]⟩]
         next_yield_id := 4
         next_batch_id := 5 }, none) :=
  (C10_absent_batch_treated_as_open ⟨none, none, none⟩ ⟨[], [], 3, 4⟩
      ⟨3, 2, "evening", 10, 1230, 6, "low", 6, 70⟩ "evening" 10
      (by decide) rfl).2.2 rfl rfl (by decide) (by simp)

/-! ## C4: yield-to-batch assignment

`Batch.ensure_yield_assignment` on a yield with a non-empty session:
absent batch → fresh `OPEN` batch; locked batch → fresh `OPEN` batch (the
locked row untouched); closed batch → validation error, nothing attached;
open batch → attach to the most-recently-created batch. -/

/-- **C4.** For every database and yield with a non-empty session (ids
well-formed): `for_session?` finds the most-recently-created batch for
the yield's (session, recorded date); when none exists a fresh `OPEN`
batch holding exactly this yield is appended; when the existing batch is
`LOCKED` the same fresh batch is appended and every existing row — the
locked batch included — is unchanged, so the yield never attaches to the
locked batch; when the existing batch is `CLOSED` (not locked) the
assignment raises a validation error and no batch gains the yield; when
it is `OPEN` the yield is attached to it. -/
theorem C4_ensure_yield_assignment_cases (db : Dairy.LabDb) (y : Dairy.MYRow)
    (hs : y.session ≠ "")
    (wf : ∀ b ∈ db.batches, b.id < db.next_batch_id) :
    (∀ b, Dairy.for_session? db y.session y.day = some b →
        b ∈ db.batches ∧ b.session = y.session ∧ b.collection_date = y.day ∧
        ∀ a ∈ db.batches, a.session = y.session → a.collection_date = y.day →
          a.created_at ≤ b.created_at) ∧
    (Dairy.for_session? db y.session y.day = none →
        (∀ a ∈ db.batches, ¬(a.session = y.session ∧ a.collection_date = y.day)) ∧
        Dairy.ensure_yield_assignment db y = .ok
          { db with
              batches := db.batches ++
                [⟨db.next_batch_id, y.session, y.day, Dairy.BatchState.Open,
                  none, none, none, none, db.next_batch_id, [y.id]⟩]
              next_batch_id := db.next_batch_id + 1 }) ∧
    (∀ b, Dairy.for_session? db y.session y.day = some b →
        b.state = Dairy.BatchState.Locked →
        Dairy.ensure_yield_assignment db y = .ok
          { db with
              batches := db.batches ++
                [⟨db.next_batch_id, y.session, y.day, Dairy.BatchState.Open,
                  none, none, none, none, db.next_batch_id, [y.id]⟩]
              next_batch_id := db.next_batch_id + 1 }) ∧
    (∀ b, Dairy.for_session? db y.session y.day = some b →
        b.state = Dairy.BatchState.Closed →
        Dairy.ensure_yield_assignment db y =
          .error "The selected batch is closed. Reopen it before recording new yields.") ∧
    (∀ b, Dairy.for_session? db y.session y.day = some b →
        b.state = Dairy.BatchState.Open →
        Dairy.ensure_yield_assignment db y =
          .ok (Dairy.add_yield_to db b.id y.id)) := by
  have hfresh := Dairy.ensure_fresh_attach db y wf
  refine ⟨fun b hb => Dairy.for_session?_spec hb, ?_, ?_, ?_, ?_⟩
  · intro hn
    refine ⟨Dairy.for_session?_none hn, ?_⟩
    unfold Dairy.ensure_yield_assignment Dairy.create_batch
    rw [if_neg hs]
    simp only [hn]
    exact congrArg Except.ok hfresh
  · intro b hb hst
    unfold Dairy.ensure_yield_assignment Dairy.create_batch
    rw [if_neg hs]
    simp only [hb, Dairy.Batch.is_locked, hst, decide_True, if_true]
    exact congrArg Except.ok hfresh
  · intro b hb hst
    unfold Dairy.ensure_yield_assignment
    rw [if_neg hs]
    simp [hb, Dairy.Batch.is_locked, Dairy.Batch.is_open, hst]
  · intro b hb hst
    unfold Dairy.ensure_yield_assignment
    rw [if_neg hs]
    simp [hb, Dairy.Batch.is_locked, Dairy.Batch.is_open, hst]

/-- Witness for C4: on an empty database, assigning a morning yield
creates one fresh open batch containing exactly that yield. -/
theorem C4_ensure_yield_assignment_cases_witness :
    Dairy.ensure_yield_assignment ⟨[], [], 0, 0⟩
        ⟨7, 1, "morning", 0, 300, 5, "standard", 5, 85⟩ =
      .ok ⟨[], [⟨0, "morning", 0, Dairy.BatchState.Open,
        none, none, none, none, 0, [7]⟩], 0, 1⟩ :=
  ((C4_ensure_yield_assignment_cases ⟨[], [], 0, 0⟩
      ⟨7, 1, "morning", 0, 300, 5, "standard", 5, 85⟩
      (by decide) (by simp)).2.1 rfl).2

/-! ## C1: LOCKED is terminal -/

/-- **C1.** For every `Batch` whose state is `LOCKED`, `open()` and
`close()` raise a validation error — the `Except.error` result carries no
mutated row, so state and the `closed_at`/`closed_by`/`reopened_at`
stamps are untouched — and `lock()` keeps the state `LOCKED`, so no
operation leaves `LOCKED`.  After `BatchTest.approve()` or
`BatchTest.reject(reason)` on any batch `c`, that batch is locked
(`is_locked` is true) and a subsequent `open()`/`close()` fails. -/
theorem C1_locked_batches_are_terminal
    (b c : Dairy.Batch) (t : Dairy.BatchTest)
    (u u' : Option ℕ) (now now' : ℕ) (reason : Option String)
    (h : b.state = Dairy.BatchState.Locked) :
    b.open u now = .error "Batch is locked after lab approval and cannot be reopened." ∧
    b.close u now = .error "Batch is already locked for lab processing." ∧
    b.lock.state = Dairy.BatchState.Locked ∧
    (t.approve c).2.is_locked = true ∧
    ((t.approve c).2.open u' now').isOk = false ∧
    ((t.approve c).2.close u' now').isOk = false ∧
    (t.reject reason c).2.is_locked = true ∧
    ((t.reject reason c).2.open u' now').isOk = false ∧
    ((t.reject reason c).2.close u' now').isOk = false := by
  refine ⟨?_, ?_, rfl, rfl, ?_, ?_, rfl, ?_, ?_⟩ <;>
    simp [Dairy.Batch.open, Dairy.Batch.close, Dairy.Batch.lock,
      Dairy.BatchTest.approve, Dairy.BatchTest.reject, Dairy.Batch.is_locked, h,
      Except.isOk, Except.toBool]

/-! ## C3: session resolution against the collection windows

The code wraps a window around midnight only when `end < start`
(`if start <= end` takes the non-wrapping branch on equality), so a
window whose end *equals* its start matches no time at all, while the
claim reads `end ≤ start` as wrapping.  The claim is corrected to strict
inequality. -/

/-- **C3 counterexample.** Override the morning window to 10:00–10:00
(start = end).  Under the claim's reading (`end ≤ start` wraps midnight)
that window contains 11:00, yet `resolve_collection_session` at 11:00
returns `none`: the code treats an equal-boundary window as empty, not as
wrapping. -/
theorem C3_equal_bounds_window_is_empty_not_wrapping :
    (⟨"morning", 600, 600⟩ : Dairy.Window) ∈
      Dairy.get_collection_windows ⟨some (600, 600), none, none⟩ ∧
    Dairy.specInWindow 660 ⟨"morning", 600, 600⟩ = true ∧
    Dairy.resolve_collection_session ⟨some (600, 600), none, none⟩ 660 = none := by
  decide

/-- **C3 (amended).** For every override configuration and timestamp,
`resolve_collection_session` returns a session key iff the local time
lies in some entry of `get_collection_windows()` (overrides included),
and returns `none` otherwise; a window whose end is *strictly* less than
its start wraps midnight (so a 22:00–02:00 window contains 23:30 and
01:00 but not 12:00), while a window whose end equals its start contains
no time. -/
theorem C3_resolve_session_iff_in_some_window
    (ov : Dairy.WindowOverrides) (t : ℕ) (w : Dairy.Window) :
    ((Dairy.resolve_collection_session ov t).isSome = true ↔
      ∃ u ∈ Dairy.get_collection_windows ov, Dairy.inWindow t u = true) ∧
    (w.stop < w.start →
      Dairy.inWindow t w = (decide (w.start ≤ t) || decide (t < w.stop))) ∧
    (w.stop = w.start → Dairy.inWindow t w = false) ∧
    Dairy.inWindow 1410 ⟨"night", 1320, 120⟩ = true ∧
    Dairy.inWindow 60 ⟨"night", 1320, 120⟩ = true ∧
    Dairy.inWindow 720 ⟨"night", 1320, 120⟩ = false := by
  refine ⟨?_, ?_, ?_, by decide, by decide, by decide⟩
  · simp [Dairy.resolve_collection_session, List.find?_isSome]
  · intro hlt
    simp [Dairy.inWindow, Nat.not_le.mpr hlt, Nat.not_le]
  · intro heq
    simp only [Dairy.inWindow, heq, le_refl, if_true]
    by_cases hst : w.start ≤ t
    · simp [hst, heq.symm ▸ Nat.not_lt.mpr hst]
    · simp [hst]

/-- Witness for C3 at a concrete wrapped window. -/
theorem C3_resolve_session_iff_in_some_window_witness :
    Dairy.inWindow 1410 ⟨"night", 1320, 120⟩ =
      (decide ((1320 : ℕ) ≤ 1410) || decide ((1410 : ℕ) < 120)) :=
  (C3_resolve_session_iff_in_some_window ⟨none, none, none⟩ 1410
    ⟨"night", 1320, 120⟩).2.1 (by decide)

/-- Witness for C1 at a concrete locked batch. -/
theorem C1_locked_batches_are_terminal_witness :
    (⟨1, "morning", 0, Dairy.BatchState.Locked, none, none, none, none, 0, []⟩ :
        Dairy.Batch).state = Dairy.BatchState.Locked ∧
    (Dairy.Batch.open ⟨1, "morning", 0, Dairy.BatchState.Locked, none, none, none, none, 0, []⟩
        none 5 = .error "Batch is locked after lab approval and cannot be reopened.") :=
  ⟨rfl, (C1_locked_batches_are_terminal
      ⟨1, "morning", 0, Dairy.BatchState.Locked, none, none, none, none, 0, []⟩
      ⟨2, "morning", 0, Dairy.BatchState.Open, none, none, none, none, 1, []⟩
      ⟨"pending", none⟩ none none 5 6 none rfl).1⟩

/-! ## C5: lab approval synchronizes the production batch -/

/-- **C5.** Saving a `LabBatchApproval` linked to a `ProductionBatch`
derives the batch status — approved with an expiry date →
`READY_FOR_STORE`, approved without → `LAB_APPROVED`, rejected or
pending → `PENDING_LAB` — and always leaves `moved_to_lab` true; and
`set_expiry(days)` on an approved approval sets
`expiry_date = today + days` after which the status is
`READY_FOR_STORE`. -/
theorem C5_approval_sync_drives_status (a : Dairy.LabBatchApproval)
    (b : Dairy.ProductionBatch) (today days : ℕ) :
    (a.overall_result = "approved" → a.expiry_date.isSome →
      (a.save (some b)).2 = some
        { b with status := Dairy.PBStatus.ready_for_store, moved_to_lab := true }) ∧
    (a.overall_result = "approved" → a.expiry_date = none →
      (a.save (some b)).2 = some
        { b with status := Dairy.PBStatus.lab_approved, moved_to_lab := true }) ∧
    (a.overall_result = "rejected" →
      (a.save (some b)).2 = some
        { b with status := Dairy.PBStatus.pending_lab, moved_to_lab := true }) ∧
    (a.overall_result = "pending" →
      (a.save (some b)).2 = some
        { b with status := Dairy.PBStatus.pending_lab, moved_to_lab := true }) ∧
    (∀ b', (a.save (some b)).2 = some b' → b'.moved_to_lab = true) ∧
    (a.overall_result = "approved" →
      a.set_expiry (some b) today days =
        ({ a with expiry_date := some (today + days) }, some
          { b with status := Dairy.PBStatus.ready_for_store, moved_to_lab := true })) := by
  have hra : ("rejected" : String) ≠ "approved" := by decide
  have hpa : ("pending" : String) ≠ "approved" := by decide
  have hpr : ("pending" : String) ≠ "rejected" := by decide
  refine ⟨?_, ?_, ?_, ?_, ?_, ?_⟩
  · intro h1 h2
    simp [Dairy.LabBatchApproval.save,
      Dairy.LabBatchApproval.sync_production_batch_state, h1, h2]
  · intro h1 h2
    simp [Dairy.LabBatchApproval.save,
      Dairy.LabBatchApproval.sync_production_batch_state, h1, h2]
  · intro h1
    simp [Dairy.LabBatchApproval.save,
      Dairy.LabBatchApproval.sync_production_batch_state, h1, hra]
  · intro h1
    simp [Dairy.LabBatchApproval.save,
      Dairy.LabBatchApproval.sync_production_batch_state, h1, hpa, hpr]
  · intro b' h
    have h' := Option.some.inj h
    subst h'
    rfl
  · intro h1
    simp [Dairy.LabBatchApproval.set_expiry, Dairy.LabBatchApproval.save,
      Dairy.LabBatchApproval.sync_production_batch_state, h1]

/-- Witness for C5: an approved approval with an expiry moves the batch
to READY_FOR_STORE, and `set_expiry(7)` on day 100 stamps day 107. -/
theorem C5_approval_sync_drives_status_witness :
    ((⟨"approved", some 20⟩ : Dairy.LabBatchApproval).save
        (some ⟨1, "MALA-CL-500", "mala", Dairy.PBStatus.pending_lab, false⟩)).2 =
      some ⟨1, "MALA-CL-500", "mala", Dairy.PBStatus.ready_for_store, true⟩ ∧
    Dairy.LabBatchApproval.set_expiry ⟨"approved", none⟩
        (some ⟨1, "MALA-CL-500", "mala", Dairy.PBStatus.pending_lab, false⟩) 100 7 =
      (⟨"approved", some 107⟩,
        some ⟨1, "MALA-CL-500", "mala", Dairy.PBStatus.ready_for_store, true⟩) :=
  ⟨(C5_approval_sync_drives_status ⟨"approved", some 20⟩
      ⟨1, "MALA-CL-500", "mala", Dairy.PBStatus.pending_lab, false⟩ 0 0).1 rfl rfl,
   (C5_approval_sync_drives_status ⟨"approved", none⟩
      ⟨1, "MALA-CL-500", "mala", Dairy.PBStatus.pending_lab, false⟩ 100 7).2.2.2.2.2 rfl⟩

/-! ## C2: FIFO milk consumption -/

theorem eligible_sum_cons (y : Dairy.TankYield) (ys : List Dairy.TankYield) :
    Dairy.eligible_sum (y :: ys) =
      (if Dairy.eligible_quality y then y.litres else 0) + Dairy.eligible_sum ys := by
  by_cases he : Dairy.eligible_quality y <;>
    simp [Dairy.eligible_sum, List.filter_cons, he]

theorem eligible_sum_nonneg (ys : List Dairy.TankYield)
    (h : ∀ y ∈ ys, 0 ≤ y.litres) : 0 ≤ Dairy.eligible_sum ys := by
  induction ys with
  | nil => simp [Dairy.eligible_sum]
  | cons y ys ih =>
      have hy := h y (List.mem_cons_self _ _)
      have ih' := ih (fun z hz => h z (List.mem_cons_of_mem _ hz))
      rw [eligible_sum_cons]
      by_cases he : Dairy.eligible_quality y
      · rw [if_pos he]; linarith
      · rw [if_neg he]; linarith

theorem deduct_fifo_length (tank : List Dairy.TankYield) :
    ∀ r, (Dairy.deduct_fifo tank r).length = tank.length := by
  induction tank with
  | nil => intro r; rfl
  | cons y ys ih =>
      intro r
      by_cases he : Dairy.eligible_quality y <;>
        simp [Dairy.deduct_fifo, he, ih]

/-- Deduction leaves the ineligible rows exactly as they were. -/
theorem deduct_fifo_filter_ineligible (tank : List Dairy.TankYield) :
    ∀ r, (Dairy.deduct_fifo tank r).filter (fun y => !Dairy.eligible_quality y) =
      tank.filter (fun y => !Dairy.eligible_quality y) := by
  induction tank with
  | nil => intro r; rfl
  | cons y ys ih =>
      intro r
      by_cases he : Dairy.eligible_quality y
      · have he2 : Dairy.eligible_quality
            { y with litres := y.litres - min r y.litres } = true := he
        simp [Dairy.deduct_fifo, he, List.filter_cons, he2, ih]
      · simp [Dairy.deduct_fifo, he, List.filter_cons, ih]

/-- Deduction removes exactly the requested volume from the eligible
rows when it is available. -/
theorem deduct_fifo_elig_sum (tank : List Dairy.TankYield) :
    ∀ r, 0 ≤ r → r ≤ Dairy.eligible_sum tank → (∀ y ∈ tank, 0 ≤ y.litres) →
      Dairy.eligible_sum (Dairy.deduct_fifo tank r) =
        Dairy.eligible_sum tank - r := by
  induction tank with
  | nil =>
      intro r h0 h1 _
      simp [Dairy.eligible_sum, Dairy.deduct_fifo] at h1 ⊢
      linarith
  | cons y ys ih =>
      intro r h0 h1 hnn
      have hy := hnn y (List.mem_cons_self _ _)
      have hnn' := fun z hz => hnn z (List.mem_cons_of_mem y hz)
      by_cases he : Dairy.eligible_quality y
      · rw [eligible_sum_cons, if_pos he] at h1
        have htr : min r y.litres ≤ r := min_le_left _ _
        have h0' : 0 ≤ r - min r y.litres := by linarith
        have h1' : r - min r y.litres ≤ Dairy.eligible_sum ys := by
          rcases le_total r y.litres with hc | hc
          · rw [min_eq_left hc]
            have := eligible_sum_nonneg ys hnn'
            linarith
          · rw [min_eq_right hc]
            linarith
        have hrec := ih (r - min r y.litres) h0' h1' hnn'
        have he2 : Dairy.eligible_quality
            { y with litres := y.litres - min r y.litres } = true := he
        simp only [Dairy.deduct_fifo, he, if_true]
        rw [eligible_sum_cons, if_pos he2, hrec, eligible_sum_cons, if_pos he]
        ring
      · rw [eligible_sum_cons, if_neg he] at h1
        have hrec := ih r h0 (by linarith) hnn'
        simp only [Dairy.deduct_fifo, he, Bool.false_eq_true, if_false]
        rw [eligible_sum_cons, if_neg he, hrec, eligible_sum_cons, if_neg he]
        ring

/-- Splitting the tank: after consuming through a prefix, the remaining
request is `max 0 (r - eligible_sum prefix)`. -/
theorem deduct_fifo_append (xs : List Dairy.TankYield) :
    ∀ (ys : List Dairy.TankYield) (r : ℚ), 0 ≤ r → (∀ y ∈ xs, 0 ≤ y.litres) →
      Dairy.deduct_fifo (xs ++ ys) r =
        Dairy.deduct_fifo xs r ++
          Dairy.deduct_fifo ys (max 0 (r - Dairy.eligible_sum xs)) := by
  induction xs with
  | nil =>
      intro ys r h0 _
      have : max 0 (r - Dairy.eligible_sum []) = r := by
        simp [Dairy.eligible_sum]
        exact h0
      simp [Dairy.deduct_fifo, this]
  | cons y xs ih =>
      intro ys r h0 hnn
      have hy := hnn y (List.mem_cons_self _ _)
      have hnn' := fun z hz => hnn z (List.mem_cons_of_mem y hz)
      by_cases he : Dairy.eligible_quality y
      · have h0' : 0 ≤ r - min r y.litres := by
          have := min_le_left r y.litres
          linarith
        have hmax : max 0 (r - min r y.litres - Dairy.eligible_sum xs) =
            max 0 (r - Dairy.eligible_sum (y :: xs)) := by
          rw [eligible_sum_cons, if_pos he]
          rcases le_total r y.litres with hc | hc
          · rw [min_eq_left hc]
            have hs := eligible_sum_nonneg xs hnn'
            rw [max_eq_left (by linarith), max_eq_left (by linarith)]
          · rw [min_eq_right hc]
            ring_nf
        simp only [List.cons_append, Dairy.deduct_fifo, he, if_true]
        rw [List.append_eq, ih ys (r - min r y.litres) h0' hnn', hmax]
      · have hsum : Dairy.eligible_sum (y :: xs) = Dairy.eligible_sum xs := by
          rw [eligible_sum_cons, if_neg he]; ring
        simp only [List.cons_append, Dairy.deduct_fifo, he, Bool.false_eq_true, if_false]
        rw [List.append_eq, ih ys r h0 hnn', hsum]

/-- **C2.** `consume_milk` (modelled from the spec, the newer
ProductionBatch model body being absent from the snapshot): only premium
and standard yields count toward availability; `liters_used ≤ 0` and
insufficient eligible volume both fail with no yield mutated; otherwise
the deduction walks the tank oldest-first taking
`min(remaining, yield.litres)` per eligible row — formalized by the
prefix-split conjunct — leaving ineligible rows untouched, removing
exactly the requested volume, and marking the batch `moved_to_lab` with
status `PENDING_LAB`; the spec's 10/5/3-litre example behaves as
claimed. -/
theorem C2_consume_milk_fifo (tank : List Dairy.TankYield)
    (b : Dairy.ProductionBatch) (l : ℚ)
    (hnn : ∀ y ∈ tank, 0 ≤ y.litres) :
    (l ≤ 0 →
      Dairy.consume_milk tank b l = .error "Liters must be greater than zero.") ∧
    (Dairy.eligible_sum tank < l →
      Dairy.consume_milk tank b l =
        .error "Not enough milk in tank for this production batch") ∧
    (0 < l → l ≤ Dairy.eligible_sum tank →
      Dairy.consume_milk tank b l = .ok (Dairy.deduct_fifo tank l,
        { b with moved_to_lab := true, status := Dairy.PBStatus.pending_lab }) ∧
      (Dairy.deduct_fifo tank l).length = tank.length ∧
      (Dairy.deduct_fifo tank l).filter (fun y => !Dairy.eligible_quality y) =
        tank.filter (fun y => !Dairy.eligible_quality y) ∧
      Dairy.eligible_sum (Dairy.deduct_fifo tank l) =
        Dairy.eligible_sum tank - l) ∧
    (∀ xs y ys, 0 < l → tank = xs ++ y :: ys →
      Dairy.eligible_quality y = true →
      Dairy.deduct_fifo tank l =
        Dairy.deduct_fifo xs l ++
          { y with
              litres := y.litres - min (max 0 (l - Dairy.eligible_sum xs)) y.litres } ::
            Dairy.deduct_fifo ys (max 0 (l - Dairy.eligible_sum xs) -
              min (max 0 (l - Dairy.eligible_sum xs)) y.litres)) ∧
    Dairy.consume_milk
        [⟨1, 10, "premium"⟩, ⟨2, 5, "standard"⟩, ⟨3, 3, "low"⟩] b 12 =
      .ok ([⟨1, 0, "premium"⟩, ⟨2, 3, "standard"⟩, ⟨3, 3, "low"⟩],
        { b with moved_to_lab := true, status := Dairy.PBStatus.pending_lab }) ∧
    Dairy.consume_milk
        [⟨1, 10, "premium"⟩, ⟨2, 5, "standard"⟩, ⟨3, 3, "low"⟩] b 20 =
      .error "Not enough milk in tank for this production batch" := by
  refine ⟨?_, ?_, ?_, ?_, ?_, ?_⟩
  · intro h
    simp [Dairy.consume_milk, h]
  · intro h
    have hl0 : ¬ l ≤ 0 :=
      not_le.mpr (lt_of_le_of_lt (eligible_sum_nonneg tank hnn) h)
    simp [Dairy.consume_milk, hl0, h]
  · intro h0 h1
    have hl0 : ¬ l ≤ 0 := not_le.mpr h0
    have hs : ¬ (Dairy.eligible_sum tank < l) := not_lt.mpr h1
    exact ⟨by simp [Dairy.consume_milk, hl0, hs],
      deduct_fifo_length tank l,
      deduct_fifo_filter_ineligible tank l,
      deduct_fifo_elig_sum tank l (le_of_lt h0) h1 hnn⟩
  · intro xs y ys h0 heq he
    subst heq
    have hnnxs : ∀ z ∈ xs, 0 ≤ z.litres :=
      fun z hz => hnn z (List.mem_append_left _ hz)
    rw [deduct_fifo_append xs (y :: ys) l (le_of_lt h0) hnnxs]
    simp only [Dairy.deduct_fifo, he, if_true]
  · have e1 : Dairy.eligible_quality ⟨1, 10, "premium"⟩ = true := by decide
    have e2 : Dairy.eligible_quality ⟨2, 5, "standard"⟩ = true := by decide
    have e3 : Dairy.eligible_quality ⟨3, 3, "low"⟩ = false := by decide
    have e1' : Dairy.eligible_quality ⟨1, 10 - min 12 10, "premium"⟩ = true := by decide
    have e2' : Dairy.eligible_quality ⟨2, 5 - min (12 - min 12 10) 5, "standard"⟩ = true := by decide
    norm_num [Dairy.consume_milk, Dairy.eligible_sum,
      Dairy.deduct_fifo, e1, e2, e3, e1', e2', min_def]
  · have e1 : Dairy.eligible_quality ⟨1, 10, "premium"⟩ = true := by decide
    have e2 : Dairy.eligible_quality ⟨2, 5, "standard"⟩ = true := by decide
    have e3 : Dairy.eligible_quality ⟨3, 3, "low"⟩ = false := by decide
    norm_num [Dairy.consume_milk, Dairy.eligible_sum, e1, e2, e3]

/-- Witness for C2 at the spec's example tank. -/
theorem C2_consume_milk_fifo_witness :
    Dairy.consume_milk
        [⟨1, 10, "premium"⟩, ⟨2, 5, "standard"⟩, ⟨3, 3, "low"⟩]
        ⟨4, "ESL-1L", "esl", Dairy.PBStatus.pending_lab, false⟩ 12 =
      .ok ([⟨1, 0, "premium"⟩, ⟨2, 3, "standard"⟩, ⟨3, 3, "low"⟩],
        ⟨4, "ESL-1L", "esl", Dairy.PBStatus.pending_lab, true⟩) :=
  (C2_consume_milk_fifo
      [⟨1, 10, "premium"⟩, ⟨2, 5, "standard"⟩, ⟨3, 3, "low"⟩]
      ⟨4, "ESL-1L", "esl", Dairy.PBStatus.pending_lab, false⟩ 12
      (by decide)).2.2.2.2.1

/-! ## C9: carton/loose split round-trip -/

/-- **C9.** For every packet total and packaging with a positive
packets-per-carton, the split `cartons = total / ppc`,
`loose_units = total % ppc` of `save_storage_assignment` followed by
`ColdStorageInventory.total_units()` returns the original total; with no
packaging everything is stored loose and `total_units()` returns the
loose units; packaging 24 with 50 packets gives cartons 2, loose 2 and
`total_units() = 50`. -/
theorem C9_storage_split_round_trip (total ppc : ℕ) (r : Dairy.SRecord)
    (hppc : 0 < ppc) :
    (Dairy.split_units total (some ppc) = (total / ppc, total % ppc) ∧
      Dairy.SRecord.total_units
        { r with
            packaging := some ppc
            cartons := total / ppc
            loose_units := total % ppc } = total) ∧
    (Dairy.split_units total none = (0, total) ∧
      Dairy.SRecord.total_units
        { r with
            packaging := none
            cartons := 0
            loose_units := total } = total) ∧
    (Dairy.split_units 50 (some 24) = (2, 2) ∧
      Dairy.SRecord.total_units
        { r with
            packaging := some 24
            cartons := 2
            loose_units := 2 } = 50) := by
  have hne : ppc ≠ 0 := Nat.pos_iff_ne_zero.mp hppc
  have hdm : total / ppc * ppc + total % ppc = total := by
    rw [Nat.mul_comm]
    exact Nat.div_add_mod total ppc
  refine ⟨⟨?_, ?_⟩, ⟨rfl, rfl⟩, ⟨rfl, by simp [Dairy.SRecord.total_units]⟩⟩
  · simp [Dairy.split_units, hne]
  · simp [Dairy.SRecord.total_units, hne, hdm]

/-- Witness for C9 at the spec's 24-per-carton, 50-packet example. -/
theorem C9_storage_split_round_trip_witness :
    Dairy.split_units 50 (some 24) = (2, 2) ∧
    Dairy.SRecord.total_units ⟨1, some 24, 10, 2, 2, "in_storage", 0⟩ = 50 :=
  (C9_storage_split_round_trip 50 24 ⟨1, some 24, 10, 2, 2, "in_storage", 0⟩
    (by decide)).2.2

/-! ## C8: on-demand storage adjustment -/

/-- With pairwise-distinct batch ids, erasing the matching record leaves
no record for that batch. -/
theorem find?_eraseP_none (l : List Dairy.SRecord) (bid : ℕ)
    (hnd : (l.map (fun q => q.production_batch_id)).Nodup) :
    (l.eraseP (fun q => q.production_batch_id = bid)).find?
      (fun q => q.production_batch_id = bid) = none := by
  induction l with
  | nil => rfl
  | cons a l ih =>
      rw [List.map_cons, List.nodup_cons] at hnd
      by_cases ha : a.production_batch_id = bid
      · have hb : decide (a.production_batch_id = bid) = true := by simp [ha]
        simp only [List.eraseP_cons, hb, cond_true]
        rw [List.find?_eq_none]
        intro q hq
        simp only [decide_eq_true_eq]
        intro hqbid
        refine absurd ?_ hnd.1
        rw [ha]
        exact hqbid ▸ List.mem_map_of_mem _ hq
      · have hb : decide (a.production_batch_id = bid) = false := by simp [ha]
        simp only [List.eraseP_cons, hb, cond_false, List.find?_cons]
        exact ih hnd.2

/-- **C8.** `adjust_storage_for_inventory_item(item, -N)` with `N > 0` on
an item linked to batch `bid` whose storage lot is `r`: when the lot's
computed total is at most `N` the lot row is deleted entirely (no record
for the batch remains); otherwise the lot's computed total decreases by
exactly `N`, re-split as `cartons = new_total / ppc`,
`loose_units = new_total % ppc` for a usable packaging and stored all
loose otherwise; an item without a linked batch is a no-op returning
false. -/
theorem C8_adjust_storage_for_inventory_item
    (db : Dairy.StoreDb) (item : Dairy.InvItemRef) (N bid : ℕ)
    (r : Dairy.SRecord) (today : ℤ) (now : ℕ)
    (hN : 0 < N)
    (hbid : item.batch_id = some bid)
    (hfind : db.records.find? (fun q => q.production_batch_id = bid) = some r)
    (hnd : (db.records.map (fun q => q.production_batch_id)).Nodup) :
    ((r.total_units : ℤ) ≤ (N : ℤ) →
      Dairy.adjust_storage_for_inventory_item db item (-(N : ℤ)) today now =
        (true, ⟨db.records.eraseP (fun q => q.production_batch_id = bid)⟩) ∧
      (db.records.eraseP (fun q => q.production_batch_id = bid)).find?
        (fun q => q.production_batch_id = bid) = none) ∧
    (∀ ppc, (N : ℤ) < (r.total_units : ℤ) → r.packaging = some ppc → 0 < ppc →
      Dairy.adjust_storage_for_inventory_item db item (-(N : ℤ)) today now =
        (true, ⟨db.records.map fun q => if q.production_batch_id = bid then
          { r with
              cartons := (r.total_units - N) / ppc
              loose_units := (r.total_units - N) % ppc
              status := Dairy.status_for_expiry today r.expiry_date
              last_restocked := now } else q⟩) ∧
      Dairy.SRecord.total_units
        { r with
            cartons := (r.total_units - N) / ppc
            loose_units := (r.total_units - N) % ppc
            status := Dairy.status_for_expiry today r.expiry_date
            last_restocked := now } = r.total_units - N) ∧
    ((N : ℤ) < (r.total_units : ℤ) → (r.packaging = none ∨ r.packaging = some 0) →
      Dairy.adjust_storage_for_inventory_item db item (-(N : ℤ)) today now =
        (true, ⟨db.records.map fun q => if q.production_batch_id = bid then
          { r with
              cartons := 0
              loose_units := r.total_units - N
              status := Dairy.status_for_expiry today r.expiry_date
              last_restocked := now } else q⟩) ∧
      Dairy.SRecord.total_units
        { r with
            cartons := 0
            loose_units := r.total_units - N
            status := Dairy.status_for_expiry today r.expiry_date
            last_restocked := now } = r.total_units - N) ∧
    (∀ item2 : Dairy.InvItemRef, item2.batch_id = none →
      Dairy.adjust_storage_for_inventory_item db item2 (-(N : ℤ)) today now =
        (false, db)) := by
  have hδ : ¬(-(N : ℤ) = 0) := by omega
  refine ⟨?_, ?_, ?_, ?_⟩
  · intro hle
    have hc : (r.total_units : ℤ) + -(N : ℤ) ≤ 0 := by omega
    constructor
    · simp only [Dairy.adjust_storage_for_inventory_item, hbid, hδ, if_false,
        hfind, if_pos hc]
    · exact find?_eraseP_none db.records bid hnd
  · intro ppc hgt hpack hppc
    have hc : ¬((r.total_units : ℤ) + -(N : ℤ) ≤ 0) := by omega
    have hppc' : ppc ≠ 0 := Nat.pos_iff_ne_zero.mp hppc
    have hnt : ((r.total_units : ℤ) + -(N : ℤ)).toNat = r.total_units - N := by
      omega
    have hdm : (r.total_units - N) / ppc * ppc + (r.total_units - N) % ppc =
        r.total_units - N := by
      rw [Nat.mul_comm]
      exact Nat.div_add_mod _ _
    constructor
    · simp only [Dairy.adjust_storage_for_inventory_item, hbid, hδ, if_false,
        hfind, if_neg hc, hpack, hppc', ne_eq, not_false_eq_true, if_true, hnt]
    · simp only [Dairy.SRecord.total_units, hpack, hppc', ne_eq,
        not_false_eq_true, if_true]
      rw [Nat.mul_comm]
      exact Nat.div_add_mod _ _
  · intro hgt hpack
    have hc : ¬((r.total_units : ℤ) + -(N : ℤ) ≤ 0) := by omega
    have hnt : ((r.total_units : ℤ) + -(N : ℤ)).toNat = r.total_units - N := by
      omega
    rcases hpack with hpack | hpack
    · constructor
      · simp only [Dairy.adjust_storage_for_inventory_item, hbid, hδ, if_false,
          hfind, if_neg hc, hpack, hnt]
      · simp [Dairy.SRecord.total_units, hpack]
    · constructor
      · simp only [Dairy.adjust_storage_for_inventory_item, hbid, hδ, if_false,
          hfind, if_neg hc, hpack, ne_eq, not_true_eq_false, if_false, hnt]
      · simp [Dairy.SRecord.total_units, hpack]
  · intro item2 h2
    simp [Dairy.adjust_storage_for_inventory_item, h2]

/-- Witness for C8: draining 60 packets from a 50-packet lot deletes the
lot row. -/
theorem C8_adjust_storage_for_inventory_item_witness :
    Dairy.adjust_storage_for_inventory_item
        ⟨[⟨1, some 24, 10, 2, 2, "in_storage", 0⟩]⟩ ⟨some 1⟩ (-(60 : ℤ)) 20 5 =
      (true, ⟨[]⟩) :=
  ((C8_adjust_storage_for_inventory_item
      ⟨[⟨1, some 24, 10, 2, 2, "in_storage", 0⟩]⟩ ⟨some 1⟩ 60 1
      ⟨1, some 24, 10, 2, 2, "in_storage", 0⟩ 20 5
      (by decide) rfl (by decide) (by decide)).1 (by decide)).1

/-! ## C7: storage → inventory synchronization

The auto-create branch of `_sync_inventory_for_sku` requires a *positive*
storage total (`if storage_total > 0 and latest_batch`), so storage rows
whose quantities sum to zero do not create an `InventoryItem`, contrary
to the claim's "if storage exists for the SKU … auto-created". -/

/-- **C7 counterexample.** A SKU "A" storage lot with quantity 0 exists
and no InventoryItem row does, yet the post-save sync creates nothing:
the database is returned unchanged. -/
theorem C7_zero_total_storage_creates_no_item :
    (([⟨⟨7, "A", "mala", Dairy.PBStatus.pending_lab, false⟩, 0, none, 0⟩] :
        List Dairy.StorageLot).filter
      (fun l2 => l2.production_batch.sku = "A") ≠ []) ∧
    (([] : List Dairy.InvItem).find? (fun i => i.sku = "A") = none) ∧
    Dairy.sync_inventory_on_storage_save
        ⟨[⟨⟨7, "A", "mala", Dairy.PBStatus.pending_lab, false⟩, 0, none, 0⟩], [], []⟩
        ⟨⟨7, "A", "mala", Dairy.PBStatus.pending_lab, false⟩, 0, none, 0⟩ true 5 =
      ⟨[⟨⟨7, "A", "mala", Dairy.PBStatus.pending_lab, false⟩, 0, none, 0⟩], [], []⟩ := by
  refine ⟨by decide, rfl, ?_⟩
  norm_num [Dairy.sync_inventory_on_storage_save, Dairy.sync_inventory_for_sku,
    Dairy.storage_total_for]

/-- **C7 (amended).** Whenever a storage lot is saved or deleted, the
owning SKU's total is recomputed over all lots sharing that SKU and
written into the matching `InventoryItem.current_quantity`, with the
delta logged as an `InventoryTransaction` exactly when it is nonzero;
when no item row exists it is auto-created with the storage total
*provided that total is positive* (a zero or negative total creates
nothing); both signal receivers route through this sync. -/
theorem C7_storage_sync_recomputes_sku_totals
    (db : Dairy.InvDb) (sku : String) (pb : Dairy.ProductionBatch)
    (reason : String) (today : ℕ) (hsku : sku ≠ "") :
    (∀ item, db.items.find? (fun i => i.sku = sku) = some item →
      ∃ item',
        (Dairy.sync_inventory_for_sku db sku (some pb) reason today).items =
          db.items.map (fun i => if i.sku = sku then item' else i) ∧
        item'.current_quantity = Dairy.storage_total_for db sku ∧
        (Dairy.storage_total_for db sku - item.current_quantity ≠ 0 →
          (Dairy.sync_inventory_for_sku db sku (some pb) reason today).txns =
            db.txns ++ [⟨sku, Dairy.storage_total_for db sku -
              item.current_quantity, reason, some pb.id⟩]) ∧
        (Dairy.storage_total_for db sku - item.current_quantity = 0 →
          (Dairy.sync_inventory_for_sku db sku (some pb) reason today).txns =
            db.txns)) ∧
    (db.items.find? (fun i => i.sku = sku) = none →
      0 < Dairy.storage_total_for db sku →
      (Dairy.sync_inventory_for_sku db sku (some pb) reason today).items =
        db.items ++ [⟨pb.product_type, sku, Dairy.storage_total_for db sku,
          some pb.id, Dairy.earliest_expiry_for db sku, today⟩] ∧
      (Dairy.sync_inventory_for_sku db sku (some pb) reason today).txns =
        db.txns ++ [⟨sku, Dairy.storage_total_for db sku, reason, some pb.id⟩]) ∧
    (db.items.find? (fun i => i.sku = sku) = none →
      Dairy.storage_total_for db sku ≤ 0 →
      Dairy.sync_inventory_for_sku db sku (some pb) reason today = db) ∧
    (∀ (lot : Dairy.StorageLot) (created : Bool),
      Dairy.sync_inventory_on_storage_save db lot created today =
        Dairy.sync_inventory_for_sku db lot.production_batch.sku
          (some lot.production_batch)
          (if created then "Storage lot created" else "Storage lot updated")
          today) ∧
    (∀ lot : Dairy.StorageLot,
      Dairy.sync_inventory_on_storage_delete db lot today =
        Dairy.sync_inventory_for_sku db lot.production_batch.sku
          (some lot.production_batch) "Storage lot removed" today) := by
  refine ⟨?_, ?_, ?_, fun lot created => rfl, fun lot => rfl⟩
  · intro item hfind
    refine ⟨{ item with
        current_quantity := Dairy.storage_total_for db sku
        batch_id := if (Option.map Dairy.ProductionBatch.id (some pb)).isSome ∧
            item.batch_id ≠ Option.map Dairy.ProductionBatch.id (some pb) then
            Option.map Dairy.ProductionBatch.id (some pb)
          else item.batch_id
        expiry_date := if (Dairy.earliest_expiry_for db sku).isSome then
            Dairy.earliest_expiry_for db sku
          else item.expiry_date
        last_restocked := today }, ?_, rfl, ?_, ?_⟩
    · simp only [Dairy.sync_inventory_for_sku, if_neg hsku, hfind]
      by_cases hd : Dairy.storage_total_for db sku - item.current_quantity ≠ 0
      · rw [if_pos hd]
      · rw [if_neg hd]
    · intro hd
      simp only [Dairy.sync_inventory_for_sku, if_neg hsku, hfind]
      rw [if_pos hd]
      simp
    · intro hd
      have hd2 : ¬(Dairy.storage_total_for db sku - item.current_quantity ≠ 0) := by
        simpa using hd
      simp only [Dairy.sync_inventory_for_sku, if_neg hsku, hfind]
      rw [if_neg hd2]
  · intro hfind hpos
    constructor
    · simp only [Dairy.sync_inventory_for_sku, if_neg hsku, hfind]
      rw [if_pos hpos]
      simp
    · simp only [Dairy.sync_inventory_for_sku, if_neg hsku, hfind]
      rw [if_pos hpos]
      simp
  · intro hfind hnonpos
    have hneg : ¬(0 < Dairy.storage_total_for db sku) := not_lt.mpr hnonpos
    simp only [Dairy.sync_inventory_for_sku, if_neg hsku, hfind]
    rw [if_neg hneg]

/-- Witness for C7: one SKU "B" lot of 5 units against an item recording
2 — the sync logs the +3 delta as a transaction. -/
theorem C7_storage_sync_recomputes_sku_totals_witness :
    (Dairy.sync_inventory_for_sku
        ⟨[⟨⟨7, "B", "esl", Dairy.PBStatus.ready_for_store, true⟩, 5, some 30, 1⟩],
         [⟨"n", "B", 2, none, none, 0⟩], []⟩
        "B" (some ⟨7, "B", "esl", Dairy.PBStatus.ready_for_store, true⟩) "r" 9).txns =
      [⟨"B", (5 : ℚ) - 2, "r", some 7⟩] := by
  obtain ⟨item', h1, h2, h3, h4⟩ :=
    (C7_storage_sync_recomputes_sku_totals
      ⟨[⟨⟨7, "B", "esl", Dairy.PBStatus.ready_for_store, true⟩, 5, some 30, 1⟩],
       [⟨"n", "B", 2, none, none, 0⟩], []⟩
      "B" ⟨7, "B", "esl", Dairy.PBStatus.ready_for_store, true⟩ "r" 9
      (by decide)).1 ⟨"n", "B", 2, none, none, 0⟩ rfl
  rw [h3 (by norm_num [Dairy.storage_total_for])]
  norm_num [Dairy.storage_total_for]
